import Mathlib

/-!
# PWA Cámara: service worker (`sw.js`) and camera controller (`app.js`)

A shallow embedding of the two source files.

* Promises are modelled by their settled outcome (`Except String α`): `.then` runs on
  `ok`, `.catch` runs on `error`.
* The browser's `CacheStorage` is a list of named caches in creation order; a cache is a
  list of (request, response) pairs.  A request's identity is its method and URL.
* `console.log` / `console.error` calls have no effect on any modelled state and are
  left out.
-/

namespace SW

/-! ## Browser objects -/

/-- The part of a `Request` the worker looks at: `method` and `url`. -/
structure Request where
  method : String
  url : String
deriving DecidableEq, Repr

/-- The part of a `Response` the worker looks at: `status`, `type`, and the body. -/
structure Response where
  status : Nat
  type : String
  body : String
deriving DecidableEq, Repr

/-- One cache: stored responses keyed by request. -/
abbrev Cache := List (Request × Response)

/-- The origin's `caches` object: named caches, oldest first. -/
abbrev CacheStorage := List (String × Cache)

/-- Settled outcome of a promise. -/
abbrev Settled (α : Type) := Except String α

/-- The list version of `String.prototype.includes`. -/
def listIncludes : List Char → List Char → Bool
  | [], sub => sub.isEmpty
  | c :: cs, sub => sub.isPrefixOf (c :: cs) || listIncludes cs sub

/-- The method `String.prototype.includes`. -/
def includes (s sub : String) : Bool := listIncludes s.toList sub.toList

/-- The method `cache.match(request)`: the stored response for that request, if any. -/
def cacheMatch (c : Cache) (r : Request) : Option Response :=
  (c.find? (fun e => e.1 = r)).map Prod.snd

/-- The method `cache.put(request, response)`: replaces the entry of that request. -/
def cachePut (c : Cache) (r : Request) (resp : Response) : Cache :=
  c.filter (fun e => e.1 ≠ r) ++ [(r, resp)]

/-- The method `caches.match(request)`: the first match over all caches, in creation order. -/
def cachesMatch : CacheStorage → Request → Option Response
  | [], _ => none
  | e :: rest, r =>
    match cacheMatch e.2 r with
    | some resp => some resp
    | none => cachesMatch rest r

/-- The method `caches.keys()`. -/
def cachesKeys (cs : CacheStorage) : List String := cs.map Prod.fst

/-- The method `caches.has(name)`. -/
def cachesHas (cs : CacheStorage) (name : String) : Bool := cs.any (fun e => e.1 = name)

/-- The cache called `name`, if there is one. -/
def cachesGet (cs : CacheStorage) (name : String) : Option Cache :=
  (cs.find? (fun e => e.1 = name)).map Prod.snd

/-- The method `caches.open(name)`: creates the cache when it does not exist yet. -/
def cachesOpen (cs : CacheStorage) (name : String) : CacheStorage × Cache :=
  match cachesGet cs name with
  | some c => (cs, c)
  | none => (cs ++ [(name, [])], [])

/-- Write back the contents of the cache called `name`. -/
def cachesSet (cs : CacheStorage) (name : String) (c : Cache) : CacheStorage :=
  cs.map (fun e => if e.1 = name then (e.1, c) else e)

/-- The method `caches.delete(name)`: resolves to `true` iff a cache of that name existed. -/
def cachesDelete (cs : CacheStorage) (name : String) : CacheStorage × Bool :=
  (cs.filter (fun e => e.1 ≠ name), cachesHas cs name)

/-! ## Constants of `sw.js` -/

def CACHE_NAME : String := "pwa-camara-v1"

def ASSETS_TO_CACHE : List String :=
  ["/", "/index.html", "/app.js", "/manifest.json", "/assets/192.png", "/assets/512.png"]

/-! ## Worker state and promise chains -/

/-- What the worker's handlers can change. -/
structure WorkerState where
  caches : CacheStorage
  skipWaitingRequested : Bool
  clientsClaimed : Bool
deriving DecidableEq, Repr

/-- A promise-returning step: its settled outcome and the state it leaves. -/
abbrev Task (α : Type) := WorkerState → Settled α × WorkerState

/-- The chain `p.then(f)`: `f` runs only when `p` fulfils; a rejection is passed on. -/
def pThen {α β : Type} (p : Task α) (f : α → Task β) : Task β := fun s =>
  match p s with
  | (.ok a, s1) => f a s1
  | (.error e, s1) => (.error e, s1)

/-- The chain `p.catch(h)`: `h` runs only when `p` rejects, and the chain settles as `h` does. -/
def pCatch {α : Type} (p : Task α) (h : String → Task α) : Task α := fun s =>
  match p s with
  | (.ok a, s1) => (.ok a, s1)
  | (.error e, s1) => h e s1

/-! ## `install` -/

/-- What the browser does during one install: whether `caches.open` works, and what the
network answers for each asset URL (`none` is a network error). -/
structure InstallEnv where
  openOk : Bool
  net : String → Option Response

/-- The fetches of `cache.addAll`: every URL must be answered with an ok status (200..299). -/
def fetchAll (net : String → Option Response) : List String → Option (List (Request × Response))
  | [] => some []
  | u :: us =>
    match net u with
    | none => none
    | some r =>
      if 200 ≤ r.status ∧ r.status ≤ 299 then
        (fetchAll net us).map (fun rest => (({ method := "GET", url := u } : Request), r) :: rest)
      else none

/-- The call `caches.open(CACHE_NAME)` of the install handler. -/
def installOpen (env : InstallEnv) : Task Unit := fun s =>
  if env.openOk then (.ok (), { s with caches := (cachesOpen s.caches CACHE_NAME).1 })
  else (.error "caches.open failed", s)

/-- The call `cache.addAll(ASSETS_TO_CACHE)`: all or nothing. -/
def installAddAll (env : InstallEnv) : Task Unit := fun s =>
  match fetchAll env.net ASSETS_TO_CACHE with
  | none => (.error "TypeError: addAll failed", s)
  | some entries =>
    let c := (cachesOpen s.caches CACHE_NAME).2
    let filled := entries.foldl (fun acc e => cachePut acc e.1 e.2) c
    (.ok (), { s with caches := cachesSet s.caches CACHE_NAME filled })

/-- The call `self.skipWaiting()`. -/
def skipWaiting : Task Unit := fun s => (.ok (), { s with skipWaitingRequested := true })

/-- The install handler: the outcome is that of the promise handed to `event.waitUntil`. -/
def installHandler (env : InstallEnv) : Task Unit :=
  pCatch
    (pThen (pThen (installOpen env) (fun _ => installAddAll env)) (fun _ => skipWaiting))
    (fun _error s => (.ok (), s))

/-- The network of the failing install: everything is served except the large icon. -/
def netWithoutLargeIcon (url : String) : Option Response :=
  if url = "/assets/512.png" then none else some ⟨200, "basic", url⟩

/-! ## `activate` -/

/-- The `Promise.all(cacheNames.map(...))` of the activate handler. -/
def deleteOldCaches (cs : CacheStorage) (cacheNames : List String) : CacheStorage :=
  cacheNames.foldl
    (fun acc cacheName => if cacheName ≠ CACHE_NAME then (cachesDelete acc cacheName).1 else acc) cs

/-- The activate handler. -/
def activateHandler : Task Unit :=
  pThen (fun s => (.ok (), { s with caches := deleteOldCaches s.caches (cachesKeys s.caches) }))
    (fun _ s => (.ok (), { s with clientsClaimed := true }))

/-! ## `fetch` -/

/-- Outcome of `fetch(request)`: a response (possibly a falsy value) or a rejection. -/
inductive NetOutcome where
  | resolved (networkResponse : Option Response)
  | rejected (error : String)

/-- A `cache.put` started by the fetch handler and not awaited. -/
structure PendingPut where
  cacheName : String
  request : Request
  response : Response
deriving DecidableEq, Repr

/-- What one run of the fetch handler did. `respondWith = none`: it returned without
calling `event.respondWith`. -/
structure FetchResult where
  respondWith : Option (Settled (Option Response))
  cacheLookups : List Request
  networkCalls : List Request
  pending : List PendingPut

/-- The fetch handler. -/
def fetchHandler (caches : CacheStorage) (net : Request → NetOutcome) (request : Request) :
    FetchResult :=
  if request.method ≠ "GET" ∨ includes request.url "chrome-extension" = true then
    { respondWith := none, cacheLookups := [], networkCalls := [], pending := [] }
  else
    match cachesMatch caches request with
    | some cachedResponse =>
      { respondWith := some (.ok (some cachedResponse)), cacheLookups := [request],
        networkCalls := [], pending := [] }
    | none =>
      match net request with
      | .rejected error =>
        { respondWith := some (.error error), cacheLookups := [request],
          networkCalls := [request], pending := [] }
      | .resolved none =>
        { respondWith := some (.ok none), cacheLookups := [request],
          networkCalls := [request], pending := [] }
      | .resolved (some networkResponse) =>
        if networkResponse.status ≠ 200 ∨ networkResponse.type ≠ "basic" then
          { respondWith := some (.ok (some networkResponse)), cacheLookups := [request],
            networkCalls := [request], pending := [] }
        else
          { respondWith := some (.ok (some networkResponse)), cacheLookups := [request],
            networkCalls := [request],
            pending := [{ cacheName := CACHE_NAME, request := request,
                          response := networkResponse }] }

/-- Completion of a pending write: `caches.open(name).then(cache => cache.put(..))`. -/
def applyPut (cs : CacheStorage) (p : PendingPut) : CacheStorage :=
  let opened := cachesOpen cs p.cacheName
  cachesSet opened.1 p.cacheName (cachePut opened.2 p.request p.response)

/-- Completion of all pending writes, in the order they were started. -/
def applyPending (cs : CacheStorage) (ps : List PendingPut) : CacheStorage :=
  ps.foldl applyPut cs

/-! ## `message` -/

/-- A message to the worker: `event.data.action` and `event.ports`. -/
structure MessageEvent where
  action : String
  ports : List Nat

/-- The replies the worker posts. -/
inductive Reply where
  | cacheInfo (cacheName : String) (cachedItems : Nat)
  | success (value : Bool)
deriving DecidableEq, Repr

/-- The call `event.ports[0].postMessage(msg)`; without a port it throws and nothing is sent. -/
def postReply (ev : MessageEvent) (msg : Reply) : List (Nat × Reply) :=
  match ev.ports with
  | [] => []
  | port :: _ => [(port, msg)]

/-- The message handler: the caches it leaves and the replies it posts. -/
def messageHandler (caches : CacheStorage) (ev : MessageEvent) :
    CacheStorage × List (Nat × Reply) :=
  let r1 : CacheStorage × List (Nat × Reply) :=
    if ev.action = "getCacheInfo" then
      let opened := cachesOpen caches CACHE_NAME
      (opened.1, postReply ev (.cacheInfo CACHE_NAME opened.2.length))
    else (caches, [])
  if ev.action = "clearCache" then
    ((cachesDelete r1.1 CACHE_NAME).1, r1.2 ++ postReply ev (.success true))
  else r1

/-- The claim's reading of a URL that targets the extension scheme: the text before the
first colon is `chrome-extension`. -/
def targetsExtensionScheme (url : String) : Bool :=
  url.toList.takeWhile (fun ch => ch ≠ ':') = "chrome-extension".toList

end SW

namespace App

/-! ## Browser objects of `app.js` -/

/-- A thrown JavaScript error: its `name` and `message`. -/
structure JsError where
  name : String
  message : String
deriving DecidableEq, Repr

/-- A media track; `live` is `readyState === 'live'`. -/
structure Track where
  kind : String
  live : Bool
deriving DecidableEq, Repr

/-- A `MediaStream` object. -/
structure MediaStream where
  tracks : List Track
deriving DecidableEq, Repr

/-- The `<video>` element; `srcObject` refers to a stream object by its index. -/
structure VideoElement where
  srcObject : Option Nat
  videoWidth : Nat
  videoHeight : Nat
deriving DecidableEq, Repr

/-- The `<canvas>` element: its size, whether it carries the class `show`, and the size
of the last frame drawn on it. -/
structure CanvasElement where
  width : Nat
  height : Nat
  shown : Bool
  drawn : Option (Nat × Nat)
deriving DecidableEq, Repr

/-- The status element. -/
structure StatusElement where
  textContent : String
  className : String
  hidden : Bool
deriving DecidableEq, Repr

/-- The globals of `app.js` and the objects they refer to. `streams` holds every
`MediaStream` handed out so far, `stream` refers into it by index. An element that
`getElementById` did not find, or a global not yet assigned, is `none`.
`statusCalls` records the calls of `showStatus`, `hideTimers` the timers it set. -/
structure AppState where
  stream : Option Nat
  streams : List MediaStream
  videoElement : Option VideoElement
  canvasElement : Option CanvasElement
  statusElement : Option StatusElement
  cameraContainer : Option Bool
  openCameraBtn : Option String
  statusCalls : List (String × String)
  hideTimers : Nat
deriving DecidableEq, Repr

/-- What a statement sequence leaves: the state, and the error it threw, if any. -/
abbrev Completion := AppState × Option JsError

/-- The `TypeError` of a property access on `null`. -/
def nullAccess : JsError := ⟨"TypeError", "Cannot read properties of null"⟩

/-- The statement `try { body } catch (error) { handler }`. -/
def tryCatch (body : AppState → Completion) (handler : JsError → AppState → Completion)
    (s : AppState) : Completion :=
  match body s with
  | (s1, none) => (s1, none)
  | (s1, some error) => handler error s1

/-- The function `showStatus(message, type)`. -/
def showStatus (message type : String) (s : AppState) : AppState :=
  let s1 := { s with statusCalls := s.statusCalls ++ [(message, type)] }
  match s1.statusElement with
  | none => s1
  | some _ =>
    { s1 with
      statusElement := some { textContent := message, className := "status " ++ type,
                              hidden := false }
      hideTimers := s1.hideTimers + 1 }

/-! ## `openCamera` -/

/-- Outcome of `navigator.mediaDevices.getUserMedia(constraints)`: a stream with tracks of
the given kinds, all live, or a rejection. -/
inductive MediaResult where
  | resolved (trackKinds : List String)
  | rejected (error : JsError)
deriving DecidableEq, Repr

/-- What the browser offers to one call of `openCamera`. -/
structure OpenEnv where
  mediaDevices : Bool
  getUserMediaDefined : Bool
  getUserMedia : MediaResult
deriving DecidableEq, Repr

/-- A new stream whose tracks are all live. -/
def freshStream (trackKinds : List String) : MediaStream :=
  ⟨trackKinds.map (fun k => ⟨k, true⟩)⟩

/-- The support check followed by `await navigator.mediaDevices.getUserMedia(constraints)`:
without the capability the check throws a plain `Error`. -/
def requestCamera (env : OpenEnv) : MediaResult :=
  if !env.mediaDevices || !env.getUserMediaDefined then
    .rejected ⟨"Error", "Tu navegador no soporta acceso a la cámara"⟩
  else env.getUserMedia

/-- The `try` block of `openCamera` from the point where `await getUserMedia(...)` settles:
`s1` is the state the resumed call finds. -/
def openCameraAfterAwait (result : MediaResult) (s1 : AppState) : Completion :=
  match result with
  | .rejected error => (s1, some error)
  | .resolved trackKinds =>
      let s2 := { s1 with streams := s1.streams ++ [freshStream trackKinds],
                          stream := some s1.streams.length }
      match s2.videoElement with
      | none => (s2, some nullAccess)
      | some v =>
        let s3 := { s2 with videoElement := some { v with srcObject := s2.stream } }
        match s3.cameraContainer with
        | none => (s3, some nullAccess)
        | some _ =>
          let s4 := { s3 with cameraContainer := some true }
          match s4.openCameraBtn with
          | none => (s4, some nullAccess)
          | some _ =>
            let s5 := { s4 with openCameraBtn := some "none" }
            match s5.canvasElement with
            | none => (s5, some nullAccess)
            | some c =>
              let s6 := { s5 with canvasElement := some { c with shown := false } }
              (showStatus "Cámara activa - Lista para capturar" "success" s6, none)

/-- The `try` block of `openCamera`, run without anything happening during the `await`. -/
def openCameraTry (env : OpenEnv) (s : AppState) : Completion :=
  openCameraAfterAwait (requestCamera env)
    (showStatus "Solicitando acceso a la cámara..." "info" s)

/-- The message chosen in the `catch` block of `openCamera`. -/
def openErrorMessage (error : JsError) : String :=
  if error.name = "NotAllowedError" ∨ error.name = "PermissionDeniedError" then
    "Permiso denegado. Por favor, permite el acceso a la cámara."
  else if error.name = "NotFoundError" then
    "No se encontró ninguna cámara en el dispositivo."
  else if error.name = "NotReadableError" then
    "La cámara está siendo usada por otra aplicación."
  else
    "Error al acceder a la cámara"

/-- The `catch` block of `openCamera`. -/
def openCameraCatch (error : JsError) (s : AppState) : Completion :=
  (showStatus (openErrorMessage error) "error" s, none)

/-- The function `openCamera`, run from the call to the settling of its promise. -/
def openCamera (env : OpenEnv) : AppState → Completion :=
  tryCatch (openCameraTry env) openCameraCatch

/-! ## `takePhoto` -/

/-- What the canvas does during one call of `takePhoto`. -/
structure CaptureEnv where
  context2d : Bool
  drawImageThrows : Option JsError
  toDataURLThrows : Option JsError
  toBlobThrows : Option JsError
deriving DecidableEq, Repr

/-- The `try` block of `takePhoto`. -/
def takePhotoTry (env : CaptureEnv) (s : AppState) : Completion :=
  match s.stream with
  | none => (s, some ⟨"Error", "No hay stream de cámara activo"⟩)
  | some _ =>
    match s.videoElement with
    | none => (s, some nullAccess)
    | some v =>
      match s.canvasElement with
      | none => (s, some nullAccess)
      | some c =>
        let c1 := { c with width := v.videoWidth, height := v.videoHeight }
        let s1 := { s with canvasElement := some c1 }
        if !env.context2d then (s1, some nullAccess)
        else
          match env.drawImageThrows with
          | some e => (s1, some e)
          | none =>
            let c2 := { c1 with drawn := some (v.videoWidth, v.videoHeight), shown := true }
            let s2 := { s1 with canvasElement := some c2 }
            match env.toDataURLThrows with
            | some e => (s2, some e)
            | none =>
              match env.toBlobThrows with
              | some e => (s2, some e)
              | none =>
                (showStatus "¡Foto capturada! Revisa la consola para ver el Base64" "success" s2,
                  none)

/-- The `catch` block of `takePhoto`. -/
def takePhotoCatch (_error : JsError) (s : AppState) : Completion :=
  (showStatus "Error al capturar la foto" "error" s, none)

/-- The function `takePhoto`. -/
def takePhoto (env : CaptureEnv) : AppState → Completion :=
  tryCatch (takePhotoTry env) takePhotoCatch

/-! ## `closeCamera` -/

/-- The loop `stream.getTracks().forEach(track => track.stop())`. -/
def stopTracks (ms : MediaStream) : MediaStream :=
  ⟨ms.tracks.map (fun t => { t with live := false })⟩

/-- Update of the object at index `i`. -/
def modifyAt {α : Type} (f : α → α) : Nat → List α → List α
  | _, [] => []
  | 0, x :: xs => f x :: xs
  | i + 1, x :: xs => x :: modifyAt f i xs

/-- The `try` block of `closeCamera`. -/
def closeCameraTry (s : AppState) : Completion :=
  let s1 :=
    match s.stream with
    | some ref => { s with streams := modifyAt stopTracks ref s.streams, stream := none }
    | none => s
  let s2 :=
    match s1.videoElement with
    | some v => { s1 with videoElement := some { v with srcObject := none } }
    | none => s1
  match s2.cameraContainer with
  | none => (s2, some nullAccess)
  | some _ =>
    let s3 := { s2 with cameraContainer := some false }
    match s3.openCameraBtn with
    | none => (s3, some nullAccess)
    | some _ =>
      let s4 := { s3 with openCameraBtn := some "inline-block" }
      (showStatus "Cámara cerrada" "info" s4, none)

/-- The `catch` block of `closeCamera`. -/
def closeCameraCatch (_error : JsError) (s : AppState) : Completion :=
  (showStatus "Error al cerrar la cámara" "error" s, none)

/-- The function `closeCamera`. -/
def closeCamera : AppState → Completion :=
  tryCatch closeCameraTry closeCameraCatch

/-! ## Streams with live tracks, and runs of the three operations -/

/-- Some track of the stream is live. -/
def hasLive (ms : MediaStream) : Bool := ms.tracks.any (fun t => t.live)

/-- Indices, from `base` on, of the streams that have a live track. -/
def liveFrom : Nat → List MediaStream → List Nat
  | _, [] => []
  | base, ms :: rest =>
    if hasLive ms then base :: liveFrom (base + 1) rest else liveFrom (base + 1) rest

/-- The streams of the state that have a live track. -/
def liveStreams (s : AppState) : List Nat := liveFrom 0 s.streams

/-- The page between two events: the globals and objects of `app.js`, and the number of
`openCamera` calls that are suspended at `await getUserMedia(...)`. -/
structure Session where
  app : AppState
  suspended : Nat
deriving DecidableEq, Repr

/-- What can happen to the page: a call of `openCamera` (with whether the browser has
`navigator.mediaDevices` and `getUserMedia`), the settling of the camera request of one
suspended call, a call of `takePhoto`, a call of `closeCamera`. -/
inductive Event where
  | openCameraCalled (mediaDevices getUserMediaDefined : Bool)
  | getUserMediaSettled (result : MediaResult)
  | takePhotoCalled (env : CaptureEnv)
  | closeCameraCalled
deriving DecidableEq, Repr

/-- A call of `openCamera` up to its `await`: the progress message and the support check.
Without the capability the check throws and the `catch` block runs at once; otherwise the
camera is requested and the call is suspended, the globals being left as they are. -/
def openCameraCall (mediaDevices getUserMediaDefined : Bool) (p : Session) : Session :=
  let s1 := showStatus "Solicitando acceso a la cámara..." "info" p.app
  if !mediaDevices || !getUserMediaDefined then
    { p with app :=
        (openCameraCatch ⟨"Error", "Tu navegador no soporta acceso a la cámara"⟩ s1).1 }
  else
    { app := s1, suspended := p.suspended + 1 }

/-- The rest of `openCamera` once the camera request has settled, on the state of that
moment. -/
def openCameraResume (result : MediaResult) : AppState → Completion :=
  tryCatch (openCameraAfterAwait result) openCameraCatch

/-- The settling of a camera request: one suspended call, if there is one, is resumed. -/
def openCameraSettle (result : MediaResult) (p : Session) : Session :=
  match p.suspended with
  | 0 => p
  | n + 1 => { app := (openCameraResume result p.app).1, suspended := n }

/-- The page after one event. -/
def afterEvent (p : Session) : Event → Session
  | .openCameraCalled mediaDevices getUserMediaDefined =>
    openCameraCall mediaDevices getUserMediaDefined p
  | .getUserMediaSettled result => openCameraSettle result p
  | .takePhotoCalled env => { p with app := (takePhoto env p.app).1 }
  | .closeCameraCalled => { p with app := (closeCamera p.app).1 }

/-- The page after a sequence of events. -/
def runEvents (p : Session) (events : List Event) : Session := events.foldl afterEvent p

/-- Every `openCamera` call of the sequence is made while the stream handle is null and no
earlier `openCamera` call is still suspended. -/
def opensWhenFree : Session → List Event → Bool
  | _, [] => true
  | p, .openCameraCalled m g :: rest =>
    p.app.stream.isNone && p.suspended == 0
      && opensWhenFree (afterEvent p (.openCameraCalled m g)) rest
  | p, e :: rest => opensWhenFree (afterEvent p e) rest

/-- The page after a granted `openCamera`: the call, the events that happen while it is
suspended, and the settling of its camera request with tracks of the given kinds. -/
def afterGrantedOpen (p : Session) (between : List Event) (trackKinds : List String) :
    Session :=
  afterEvent (runEvents (afterEvent p (.openCameraCalled true true)) between)
    (.getUserMediaSettled (.resolved trackKinds))

/-- The event is a call of `takePhoto` or of `closeCamera`. -/
def Event.isCaptureOrClose : Event → Bool
  | .takePhotoCalled _ => true
  | .closeCameraCalled => true
  | _ => false

/-- The page after `DOMContentLoaded` with all its elements present and nothing opened. -/
def loadedPage : AppState :=
  { stream := none, streams := [],
    videoElement := some ⟨none, 1280, 720⟩,
    canvasElement := some ⟨300, 150, false, none⟩,
    statusElement := some ⟨"", "status hidden", true⟩,
    cameraContainer := some false, openCameraBtn := some "",
    statusCalls := [], hideTimers := 0 }

/-- A camera request that is granted with one video track. -/
def granted : OpenEnv := ⟨true, true, .resolved ["video"]⟩

/-- A camera request that the user denies. -/
def denied : OpenEnv := ⟨true, true, .rejected ⟨"NotAllowedError", "Permission denied"⟩⟩

/-- The loaded page with no call suspended. -/
def loadedSession : Session := ⟨loadedPage, 0⟩

/-- A granted `openCamera`: the call and the settling of its request with one video track. -/
def grantedOpen : List Event :=
  [.openCameraCalled true true, .getUserMediaSettled (.resolved ["video"])]

/-- Two `openCamera` calls, the second made while the first is suspended, both granted. -/
def overlappingOpens : List Event :=
  [.openCameraCalled true true, .openCameraCalled true true,
   .getUserMediaSettled (.resolved ["video"]), .getUserMediaSettled (.resolved ["video"])]

/-- The loaded page after two granted opens in a row and one `closeCamera`. -/
def idleAfterLeak : Session :=
  runEvents loadedSession (grantedOpen ++ grantedOpen ++ [.closeCameraCalled])

end App

namespace SW

/-! ## Lemmas on the cache model -/

theorem cacheMatch_cachePut (c : Cache) (r : Request) (resp : Response) :
    cacheMatch (cachePut c r resp) r = some resp := by
  have h : (c.filter (fun e => e.1 ≠ r)).find? (fun e => e.1 = r) = none := by
    rw [List.find?_eq_none]
    intro e he
    have := (List.mem_filter.mp he).2
    simpa using this
  simp [cacheMatch, cachePut, List.find?_append, h]

theorem cachesMatch_cons_miss (e : String × Cache) (rest : CacheStorage) (r : Request)
    (h : cacheMatch e.2 r = none) : cachesMatch (e :: rest) r = cachesMatch rest r := by
  simp only [cachesMatch, h]

theorem cachesMatch_cons_hit (e : String × Cache) (rest : CacheStorage) (r : Request)
    (resp : Response) (h : cacheMatch e.2 r = some resp) :
    cachesMatch (e :: rest) r = some resp := by
  simp only [cachesMatch, h]

theorem cachesMatch_none_cons (e : String × Cache) (rest : CacheStorage) (r : Request)
    (h : cachesMatch (e :: rest) r = none) :
    cacheMatch e.2 r = none ∧ cachesMatch rest r = none := by
  cases h0 : cacheMatch e.2 r with
  | some x => rw [cachesMatch_cons_hit e rest r x h0] at h; cases h
  | none => rw [cachesMatch_cons_miss e rest r h0] at h; exact ⟨rfl, h⟩

theorem cachesMatch_append_hit (cs : CacheStorage) (name : String) (c : Cache) (r : Request)
    (resp : Response) (hcs : cachesMatch cs r = none) (hc : cacheMatch c r = some resp) :
    cachesMatch (cs ++ [(name, c)]) r = some resp := by
  induction cs with
  | nil => exact cachesMatch_cons_hit (name, c) [] r resp hc
  | cons e rest ih =>
    obtain ⟨h0, hrest⟩ := cachesMatch_none_cons e rest r hcs
    rw [List.cons_append, cachesMatch_cons_miss e _ r h0]
    exact ih hrest

theorem cachesMatch_append_empty (cs : CacheStorage) (name : String) (r : Request) :
    cachesMatch (cs ++ [(name, [])]) r = cachesMatch cs r := by
  induction cs with
  | nil => simp [cachesMatch, cacheMatch]
  | cons e rest ih =>
    cases h0 : cacheMatch e.2 r with
    | some x =>
      rw [List.cons_append, cachesMatch_cons_hit e _ r x h0, cachesMatch_cons_hit e _ r x h0]
    | none =>
      rw [List.cons_append, cachesMatch_cons_miss e _ r h0, cachesMatch_cons_miss e _ r h0, ih]

theorem cachesSet_cons (e : String × Cache) (rest : CacheStorage) (name : String) (c : Cache) :
    cachesSet (e :: rest) name c
      = (if e.1 = name then (e.1, c) else e) :: cachesSet rest name c := rfl

theorem cachesHas_cons (e : String × Cache) (rest : CacheStorage) (name : String) :
    cachesHas (e :: rest) name = (decide (e.1 = name) || cachesHas rest name) := rfl

theorem cachesMatch_cachesSet_hit (cs : CacheStorage) (name : String) (c : Cache) (r : Request)
    (resp : Response) (hcs : cachesMatch cs r = none) (hc : cacheMatch c r = some resp)
    (hex : cachesHas cs name = true) :
    cachesMatch (cachesSet cs name c) r = some resp := by
  induction cs with
  | nil => simp [cachesHas] at hex
  | cons e rest ih =>
    obtain ⟨h0, hrest⟩ := cachesMatch_none_cons e rest r hcs
    rw [cachesSet_cons]
    by_cases hn : e.1 = name
    · rw [if_pos hn]
      exact cachesMatch_cons_hit _ _ r resp hc
    · rw [if_neg hn, cachesMatch_cons_miss e _ r h0]
      apply ih hrest
      rw [cachesHas_cons] at hex
      simpa [hn] using hex

theorem cachesHas_of_cachesGet (cs : CacheStorage) (name : String) (c : Cache)
    (h : cachesGet cs name = some c) : cachesHas cs name = true := by
  induction cs with
  | nil => simp [cachesGet] at h
  | cons e rest ih =>
    rw [cachesHas_cons]
    by_cases hn : e.1 = name
    · simp [hn]
    · have : cachesGet rest name = some c := by
        simpa [cachesGet, List.find?_cons, hn] using h
      simp [hn, ih this]

theorem cachesHas_cachesOpen (cs : CacheStorage) (name : String) :
    cachesHas (cachesOpen cs name).1 name = true := by
  unfold cachesOpen
  cases h : cachesGet cs name with
  | some c => simpa using cachesHas_of_cachesGet cs name c h
  | none => simp [cachesHas]

theorem cachesMatch_cachesOpen (cs : CacheStorage) (name : String) (r : Request) :
    cachesMatch (cachesOpen cs name).1 r = cachesMatch cs r := by
  unfold cachesOpen
  cases h : cachesGet cs name with
  | some c => rfl
  | none => simpa using cachesMatch_append_empty cs name r

theorem cachesMatch_applyPut (cs : CacheStorage) (name : String) (r : Request)
    (resp : Response) (hcs : cachesMatch cs r = none) :
    cachesMatch (applyPut cs ⟨name, r, resp⟩) r = some resp := by
  unfold applyPut
  exact cachesMatch_cachesSet_hit _ name _ r resp
    (by rw [cachesMatch_cachesOpen]; exact hcs) (cacheMatch_cachePut _ r resp)
    (cachesHas_cachesOpen cs name)

end SW

namespace SW

/-! ## Fetch interception -/

theorem cachesGet_cachesSet (cs : CacheStorage) (name : String) (c : Cache)
    (hex : cachesHas cs name = true) : cachesGet (cachesSet cs name c) name = some c := by
  induction cs with
  | nil => simp [cachesHas] at hex
  | cons e rest ih =>
    rw [cachesSet_cons]
    rw [cachesHas_cons] at hex
    by_cases hn : e.1 = name
    · simp [cachesGet, hn]
    · have hrest : cachesHas rest name = true := by simpa [hn] using hex
      have := ih hrest
      simp only [cachesGet] at this ⊢
      simp [hn, List.find?_cons, this]

theorem fetchHandler_of_valid_miss (caches : CacheStorage) (net : Request → NetOutcome)
    (request : Request) (resp : Response)
    (hGet : request.method = "GET")
    (hNotExt : includes request.url "chrome-extension" = false)
    (hAbsent : cachesMatch caches request = none)
    (hNet : net request = .resolved (some resp))
    (hStatus : resp.status = 200) (hType : resp.type = "basic") :
    fetchHandler caches net request
      = { respondWith := some (.ok (some resp)), cacheLookups := [request],
          networkCalls := [request],
          pending := [{ cacheName := CACHE_NAME, request := request, response := resp }] } := by
  unfold fetchHandler
  rw [if_neg (by simp [hGet, hNotExt])]
  simp only [hAbsent, hNet]
  rw [if_neg (by simp [hStatus, hType])]

theorem fetchHandler_of_hit (caches : CacheStorage) (net : Request → NetOutcome)
    (request : Request) (resp : Response)
    (hGet : request.method = "GET")
    (hNotExt : includes request.url "chrome-extension" = false)
    (hHit : cachesMatch caches request = some resp) :
    fetchHandler caches net request
      = { respondWith := some (.ok (some resp)), cacheLookups := [request],
          networkCalls := [], pending := [] } := by
  unfold fetchHandler
  rw [if_neg (by simp [hGet, hNotExt])]
  simp only [hHit]

/-- C1: take a GET request that passes the guard and is in no cache, and a network that
answers it with a response of status 200 and type basic. The first run of the fetch
handler then makes exactly one network call and answers with that response; once the
write it started has completed, the response is stored under the request (the lookup over
the caches and the CACHE_NAME cache both give it); and a second run for the same request,
whatever the network would say, answers with the stored response after one cache lookup,
with no network call and no further write. -/
theorem fetch_miss_then_hit (caches : CacheStorage) (net net2 : Request → NetOutcome)
    (request : Request) (resp : Response)
    (hGet : request.method = "GET")
    (hNotExt : includes request.url "chrome-extension" = false)
    (hAbsent : cachesMatch caches request = none)
    (hNet : net request = .resolved (some resp))
    (hStatus : resp.status = 200) (hType : resp.type = "basic") :
    (fetchHandler caches net request).respondWith = some (.ok (some resp)) ∧
    (fetchHandler caches net request).networkCalls = [request] ∧
    cachesMatch (applyPending caches (fetchHandler caches net request).pending) request
      = some resp ∧
    (cachesGet (applyPending caches (fetchHandler caches net request).pending)
      CACHE_NAME).bind (fun c => cacheMatch c request) = some resp ∧
    (fetchHandler (applyPending caches (fetchHandler caches net request).pending) net2
        request).respondWith
      = some (.ok (cachesMatch (applyPending caches (fetchHandler caches net request).pending)
          request)) ∧
    (fetchHandler (applyPending caches (fetchHandler caches net request).pending) net2
        request).cacheLookups = [request] ∧
    (fetchHandler (applyPending caches (fetchHandler caches net request).pending) net2
        request).networkCalls = [] ∧
    (fetchHandler (applyPending caches (fetchHandler caches net request).pending) net2
        request).pending = [] := by
  rw [fetchHandler_of_valid_miss caches net request resp hGet hNotExt hAbsent hNet hStatus hType]
  have hStore : applyPending caches
      [{ cacheName := CACHE_NAME, request := request, response := resp }]
      = applyPut caches ⟨CACHE_NAME, request, resp⟩ := rfl
  have hHit := cachesMatch_applyPut caches CACHE_NAME request resp hAbsent
  simp only [hStore]
  rw [fetchHandler_of_hit _ net2 request resp hGet hNotExt hHit, hHit]
  have hGetStore : (cachesGet (applyPut caches ⟨CACHE_NAME, request, resp⟩) CACHE_NAME).bind
      (fun c => cacheMatch c request) = some resp := by
    unfold applyPut
    rw [cachesGet_cachesSet _ _ _ (cachesHas_cachesOpen caches CACHE_NAME)]
    simp [cacheMatch_cachePut]
  simp [hGetStore]

/-- Witness for C1: an empty cache storage, a GET of the start page, and a network that is
down at the second run. -/
theorem fetch_miss_then_hit_witness :
    (fetchHandler [] (fun _ => .resolved (some ⟨200, "basic", "<html>"⟩))
        ⟨"GET", "https://app.example/index.html"⟩).networkCalls
      = [⟨"GET", "https://app.example/index.html"⟩] ∧
    (fetchHandler (applyPending [] (fetchHandler []
        (fun _ => .resolved (some ⟨200, "basic", "<html>"⟩))
        ⟨"GET", "https://app.example/index.html"⟩).pending)
        (fun _ => .rejected "offline") ⟨"GET", "https://app.example/index.html"⟩).networkCalls
      = [] :=
  let h := fetch_miss_then_hit [] (fun _ => .resolved (some ⟨200, "basic", "<html>"⟩))
    (fun _ => .rejected "offline") ⟨"GET", "https://app.example/index.html"⟩
    ⟨200, "basic", "<html>"⟩ rfl (by decide) rfl rfl rfl rfl
  ⟨h.2.1, h.2.2.2.2.2.2.1⟩

end SW

namespace SW

/-! ## Activation -/

theorem deleteOldCaches_eq_filter (names : List String) (cs : CacheStorage) :
    deleteOldCaches cs names
      = cs.filter (fun e => decide (e.1 = CACHE_NAME) || !decide (e.1 ∈ names)) := by
  induction names generalizing cs with
  | nil => simp [deleteOldCaches]
  | cons n rest ih =>
    have hstep : deleteOldCaches cs (n :: rest)
        = deleteOldCaches (if n ≠ CACHE_NAME then (cachesDelete cs n).1 else cs) rest := by
      simp [deleteOldCaches, List.foldl_cons]
    rw [hstep, ih]
    by_cases hn : n = CACHE_NAME
    · subst hn
      simp only [ne_eq, not_true_eq_false, if_false]
      apply List.filter_congr
      intro e _
      by_cases he : e.1 = CACHE_NAME
      · simp [he]
      · have : ¬ e.1 = CACHE_NAME := he
        simp [he]
    · simp only [ne_eq, hn, not_false_eq_true, if_true, cachesDelete, List.filter_filter]
      apply List.filter_congr
      intro e _
      by_cases he : e.1 = n
      · simp [he, hn]
      · simp [he]

theorem cachesGet_filter_self (cs : CacheStorage) (name : String) :
    cachesGet (cs.filter (fun e => decide (e.1 = name))) name = cachesGet cs name := by
  induction cs with
  | nil => rfl
  | cons e rest ih =>
    simp only [cachesGet] at ih ⊢
    by_cases he : e.1 = name
    · simp [List.filter_cons, he]
    · simp [List.filter_cons, he, List.find?_cons, ih]

/-- C3: after the activate handler has completed, every remaining cache is called
CACHE_NAME, and the cache called CACHE_NAME is found exactly as before (absent if it was
absent, otherwise with the same entries); the handler's promise fulfils and the clients
are claimed. -/
theorem activate_removes_stale_caches (s : WorkerState) :
    (activateHandler s).1 = .ok () ∧
    (∀ name ∈ cachesKeys (activateHandler s).2.caches, name = CACHE_NAME) ∧
    cachesGet (activateHandler s).2.caches CACHE_NAME = cachesGet s.caches CACHE_NAME ∧
    (activateHandler s).2.clientsClaimed = true := by
  have hcs : (activateHandler s).2.caches
      = s.caches.filter (fun e => decide (e.1 = CACHE_NAME)) := by
    simp only [activateHandler, pThen]
    rw [deleteOldCaches_eq_filter]
    apply List.filter_congr
    intro e he
    have : e.1 ∈ cachesKeys s.caches := List.mem_map_of_mem Prod.fst he
    simp [this]
  refine ⟨rfl, ?_, ?_, rfl⟩
  · intro name hname
    rw [hcs] at hname
    simp only [cachesKeys, List.mem_map, List.mem_filter] at hname
    obtain ⟨e, ⟨_, he⟩, rfl⟩ := hname
    simpa using he
  · rw [hcs]
    exact cachesGet_filter_self s.caches CACHE_NAME

end SW

namespace SW

/-! ## Cache population -/

/-- C5: on a miss answered by the network, the handler answers with the network's value
itself; it starts a write exactly when that value is a response of status 200 and type
basic, the write being one put of that response under the request in the CACHE_NAME
cache, after which that cache holds the response for the request; in every other case no
write is started and the caches stay as they were. -/
theorem fetch_population_condition (caches : CacheStorage) (net : Request → NetOutcome)
    (request : Request) (networkResponse : Option Response)
    (hGet : request.method = "GET")
    (hNotExt : includes request.url "chrome-extension" = false)
    (hMiss : cachesMatch caches request = none)
    (hNet : net request = .resolved networkResponse) :
    (fetchHandler caches net request).respondWith = some (.ok networkResponse) ∧
    ((fetchHandler caches net request).pending ≠ [] ↔
      ∃ r, networkResponse = some r ∧ r.status = 200 ∧ r.type = "basic") ∧
    (∀ r, networkResponse = some r → r.status = 200 → r.type = "basic" →
      (fetchHandler caches net request).pending
        = [{ cacheName := CACHE_NAME, request := request, response := r }] ∧
      (cachesGet (applyPending caches (fetchHandler caches net request).pending)
        CACHE_NAME).bind (fun c => cacheMatch c request) = some r) ∧
    ((¬ ∃ r, networkResponse = some r ∧ r.status = 200 ∧ r.type = "basic") →
      applyPending caches (fetchHandler caches net request).pending = caches) := by
  have hguard : ¬ (request.method ≠ "GET" ∨ includes request.url "chrome-extension" = true) := by
    simp [hGet, hNotExt]
  cases networkResponse with
  | none =>
    have h : fetchHandler caches net request
        = { respondWith := some (.ok none), cacheLookups := [request],
            networkCalls := [request], pending := [] } := by
      unfold fetchHandler
      rw [if_neg hguard]
      simp only [hMiss, hNet]
    rw [h]
    simp [applyPending]
  | some nr =>
    by_cases hbad : nr.status ≠ 200 ∨ nr.type ≠ "basic"
    · have h : fetchHandler caches net request
          = { respondWith := some (.ok (some nr)), cacheLookups := [request],
              networkCalls := [request], pending := [] } := by
        unfold fetchHandler
        rw [if_neg hguard]
        simp only [hMiss, hNet]
        rw [if_pos hbad]
      rw [h]
      refine ⟨rfl, ?_, ?_, ?_⟩
      · simp only [ne_eq, not_true_eq_false, false_iff]
        rintro ⟨r, hr, h1, h2⟩
        cases hr
        rcases hbad with hb | hb
        · exact hb h1
        · exact hb h2
      · intro r hr h1 h2
        cases hr
        rcases hbad with hb | hb
        · exact absurd h1 hb
        · exact absurd h2 hb
      · intro _
        rfl
    · have h : fetchHandler caches net request
          = { respondWith := some (.ok (some nr)), cacheLookups := [request],
              networkCalls := [request],
              pending := [{ cacheName := CACHE_NAME, request := request, response := nr }] } := by
        unfold fetchHandler
        rw [if_neg hguard]
        simp only [hMiss, hNet]
        rw [if_neg hbad]
      have hok : nr.status = 200 ∧ nr.type = "basic" := by
        constructor
        · by_contra hc; exact hbad (Or.inl hc)
        · by_contra hc; exact hbad (Or.inr hc)
      rw [h]
      refine ⟨rfl, ?_, ?_, ?_⟩
      · simp only [ne_eq, List.cons_ne_nil, not_false_eq_true, true_iff]
        exact ⟨nr, rfl, hok.1, hok.2⟩
      · intro r hr _ _
        cases hr
        refine ⟨rfl, ?_⟩
        simp only [applyPending, List.foldl_cons, List.foldl_nil, applyPut]
        rw [cachesGet_cachesSet _ _ _ (cachesHas_cachesOpen caches CACHE_NAME)]
        simp [cacheMatch_cachePut]
      · intro hno
        exact absurd ⟨nr, rfl, hok.1, hok.2⟩ hno

/-- Witness for C5: a miss on an empty storage answered with a 200 basic response. -/
theorem fetch_population_condition_witness :
    (fetchHandler [] (fun _ => .resolved (some ⟨200, "basic", "png"⟩))
        ⟨"GET", "https://app.example/assets/192.png"⟩).respondWith
      = some (.ok (some ⟨200, "basic", "png"⟩)) ∧
    ((fetchHandler [] (fun _ => .resolved (some ⟨200, "basic", "png"⟩))
        ⟨"GET", "https://app.example/assets/192.png"⟩).pending ≠ [] ↔
      ∃ r, some (⟨200, "basic", "png"⟩ : Response) = some r ∧ r.status = 200
        ∧ r.type = "basic") :=
  let h := fetch_population_condition [] (fun _ => .resolved (some ⟨200, "basic", "png"⟩))
    ⟨"GET", "https://app.example/assets/192.png"⟩ (some ⟨200, "basic", "png"⟩)
    rfl (by decide) rfl rfl
  ⟨h.1, h.2.1⟩

end SW

namespace SW

/-! ## Messages -/

/-- C6, counterexample: with no cache called CACHE_NAME the deletion does not take place
(`caches.delete` resolves to false), and the reply posted is still success = true. -/
theorem clearCache_reports_success_without_deletion :
    (cachesDelete [] CACHE_NAME).2 = false ∧
    (messageHandler [] ⟨"clearCache", [7]⟩).2 = [(7, Reply.success true)] := by
  decide

/-- C6, amended: on a clearCache message with a port, the handler removes the cache called
CACHE_NAME (leaving every other cache as it was) and posts exactly one reply on the first
port, always with success = true, whether or not a cache was deleted. -/
theorem clearCache_always_reports_success (caches : CacheStorage) (port : Nat)
    (ports : List Nat) :
    (messageHandler caches ⟨"clearCache", port :: ports⟩).2 = [(port, Reply.success true)] ∧
    (messageHandler caches ⟨"clearCache", port :: ports⟩).1
      = caches.filter (fun e => e.1 ≠ CACHE_NAME) ∧
    cachesHas (messageHandler caches ⟨"clearCache", port :: ports⟩).1 CACHE_NAME = false := by
  have h : messageHandler caches ⟨"clearCache", port :: ports⟩
      = (caches.filter (fun e => e.1 ≠ CACHE_NAME), [(port, Reply.success true)]) := by
    simp [messageHandler, postReply, cachesDelete]
  rw [h]
  refine ⟨rfl, rfl, ?_⟩
  simp [cachesHas]

/-! ## Install -/

/-- C2, the code at the failing input: the large icon cannot be fetched, so `addAll`
rejects and nothing is stored, yet the promise handed to `waitUntil` fulfils;
`skipWaiting` is not requested. -/
theorem install_failure_is_swallowed :
    fetchAll netWithoutLargeIcon ASSETS_TO_CACHE = none ∧
    installHandler ⟨true, netWithoutLargeIcon⟩ ⟨[], false, false⟩
      = (.ok (), ⟨[(CACHE_NAME, [])], false, false⟩) := by
  constructor <;> rfl

/-! ## Pass-through guard -/

/-- C4, the code at the failing input: a GET of an https URL whose path contains the text
chrome-extension does not target the extension scheme, and the handler still returns
without calling `respondWith`, looking nothing up and fetching nothing. -/
theorem fetch_guard_skips_https_request (caches : CacheStorage) (net : Request → NetOutcome) :
    targetsExtensionScheme "https://app.example/chrome-extension/help.html" = false ∧
    (fetchHandler caches net ⟨"GET", "https://app.example/chrome-extension/help.html"⟩).respondWith
      = none ∧
    (fetchHandler caches net ⟨"GET", "https://app.example/chrome-extension/help.html"⟩).cacheLookups
      = [] := by
  have hinc : includes "https://app.example/chrome-extension/help.html" "chrome-extension"
      = true := by decide
  refine ⟨by decide, ?_, ?_⟩ <;> simp [fetchHandler, hinc]

end SW

namespace App

/-! ## Effects of `showStatus` -/

theorem showStatus_statusCalls (m t : String) (s : AppState) :
    (showStatus m t s).statusCalls = s.statusCalls ++ [(m, t)] := by
  unfold showStatus
  cases h : s.statusElement <;> simp [h]

theorem showStatus_stream (m t : String) (s : AppState) :
    (showStatus m t s).stream = s.stream := by
  unfold showStatus
  cases h : s.statusElement <;> simp [h]

theorem showStatus_streams (m t : String) (s : AppState) :
    (showStatus m t s).streams = s.streams := by
  unfold showStatus
  cases h : s.statusElement <;> simp [h]

theorem showStatus_videoElement (m t : String) (s : AppState) :
    (showStatus m t s).videoElement = s.videoElement := by
  unfold showStatus
  cases h : s.statusElement <;> simp [h]

/-! ## Failure of the camera request -/

theorem openCamera_of_rejected (env : OpenEnv) (s : AppState) (error : JsError)
    (h : requestCamera env = .rejected error) :
    openCamera env s =
      (showStatus (openErrorMessage error) "error"
        (showStatus "Solicitando acceso a la cámara..." "info" s), none) := by
  simp [openCamera, tryCatch, openCameraTry, openCameraAfterAwait, h, openCameraCatch]

/-- On a page whose video, container, button and canvas elements exist, every error that
the `try` block of `openCamera` throws is the error of the camera request. -/
theorem openCameraTry_error_is_request_error (env : OpenEnv) (s : AppState) (error : JsError)
    (v : VideoElement) (c : Bool) (b : String) (k : CanvasElement)
    (hv : s.videoElement = some v) (hc : s.cameraContainer = some c)
    (hb : s.openCameraBtn = some b) (hk : s.canvasElement = some k)
    (hErr : (openCameraTry env s).2 = some error) :
    requestCamera env = .rejected error := by
  unfold openCameraTry openCameraAfterAwait showStatus at hErr
  cases hreq : requestCamera env with
  | rejected e =>
    simp only [hreq] at hErr
    cases hst : s.statusElement <;> simp [hst] at hErr <;> rw [hErr]
  | resolved kinds =>
    simp only [hreq] at hErr
    cases hst : s.statusElement <;> simp [hst, hv, hc, hb, hk] at hErr

/-- C7: when the camera request fails (the capability is missing or `getUserMedia`
rejects), `openCamera` leaves the stream handle and the stream objects as they were and,
after its progress message, calls `showStatus` with severity error and the message for
the error's name: the permission message for NotAllowedError and PermissionDeniedError,
the no-camera message for NotFoundError, the camera-in-use message for NotReadableError,
and the generic message for every other name, the missing-capability error included. -/
theorem openCamera_failure_classification (env : OpenEnv) (s : AppState) (error : JsError)
    (hfail : requestCamera env = .rejected error) :
    (openCamera env s).1.stream = s.stream ∧
    (openCamera env s).1.streams = s.streams ∧
    (openCamera env s).2 = none ∧
    (∃ msg, (openCamera env s).1.statusCalls
        = s.statusCalls ++ [("Solicitando acceso a la cámara...", "info"), (msg, "error")] ∧
      (error.name = "NotAllowedError" ∨ error.name = "PermissionDeniedError" →
        msg = "Permiso denegado. Por favor, permite el acceso a la cámara.") ∧
      (error.name = "NotFoundError" →
        msg = "No se encontró ninguna cámara en el dispositivo.") ∧
      (error.name = "NotReadableError" →
        msg = "La cámara está siendo usada por otra aplicación.") ∧
      (error.name ≠ "NotAllowedError" → error.name ≠ "PermissionDeniedError" →
        error.name ≠ "NotFoundError" → error.name ≠ "NotReadableError" →
        msg = "Error al acceder a la cámara") ∧
      ((env.mediaDevices = false ∨ env.getUserMediaDefined = false) →
        msg = "Error al acceder a la cámara")) := by
  rw [openCamera_of_rejected env s error hfail]
  refine ⟨?_, ?_, rfl, openErrorMessage error, ?_, ?_, ?_, ?_, ?_, ?_⟩
  · simp [showStatus_stream]
  · simp [showStatus_streams]
  · simp [showStatus_statusCalls]
  · intro h
    simp [openErrorMessage, h]
  · intro h
    simp [openErrorMessage, h]
  · intro h
    simp [openErrorMessage, h]
  · intro h1 h2 h3 h4
    simp [openErrorMessage, h1, h2, h3, h4]
  · intro hcap
    have herr : error = ⟨"Error", "Tu navegador no soporta acceso a la cámara"⟩ := by
      unfold requestCamera at hfail
      rcases hcap with hc | hc <;> simp [hc] at hfail <;> exact hfail.symm
    subst herr
    decide

/-- Witness for C7: the user denies the permission on the loaded page. -/
theorem openCamera_failure_classification_witness :
    (openCamera denied loadedPage).1.stream = loadedPage.stream ∧
    (openCamera denied loadedPage).2 = none :=
  let h := openCamera_failure_classification denied loadedPage
    ⟨"NotAllowedError", "Permission denied"⟩ rfl
  ⟨h.1, h.2.2.1⟩

end App

namespace App

/-! ## Notifications per operation -/

theorem openCameraTry_statusCalls (env : OpenEnv) (s : AppState) :
    ((openCameraTry env s).2 = none ∧ (openCameraTry env s).1.statusCalls
        = s.statusCalls ++ [("Solicitando acceso a la cámara...", "info"),
            ("Cámara activa - Lista para capturar", "success")]) ∨
    ((∃ e, (openCameraTry env s).2 = some e) ∧ (openCameraTry env s).1.statusCalls
        = s.statusCalls ++ [("Solicitando acceso a la cámara...", "info")]) := by
  unfold openCameraTry openCameraAfterAwait
  simp only
  repeat' split
  all_goals simp [showStatus_statusCalls]

theorem takePhotoTry_statusCalls (env : CaptureEnv) (s : AppState) :
    ((takePhotoTry env s).2 = none ∧ (takePhotoTry env s).1.statusCalls
        = s.statusCalls ++ [("¡Foto capturada! Revisa la consola para ver el Base64",
            "success")]) ∨
    ((∃ e, (takePhotoTry env s).2 = some e) ∧
      (takePhotoTry env s).1.statusCalls = s.statusCalls) := by
  unfold takePhotoTry
  simp only
  repeat' split
  all_goals simp [showStatus_statusCalls]

theorem closeCameraTry_statusCalls (s : AppState) :
    ((closeCameraTry s).2 = none ∧ (closeCameraTry s).1.statusCalls
        = s.statusCalls ++ [("Cámara cerrada", "info")]) ∨
    ((∃ e, (closeCameraTry s).2 = some e) ∧
      (closeCameraTry s).1.statusCalls = s.statusCalls) := by
  unfold closeCameraTry
  simp only
  repeat' split
  all_goals simp [showStatus_statusCalls]

/-- C8, counterexample: when the user denies the permission, `openCamera` calls
`showStatus` twice, first with its progress message and then with the error. -/
theorem openCamera_notifies_twice :
    (openCamera denied loadedPage).1.statusCalls
      = [("Solicitando acceso a la cámara...", "info"),
         ("Permiso denegado. Por favor, permite el acceso a la cámara.", "error")] ∧
    (openCamera denied loadedPage).1.statusCalls.length ≠ loadedPage.statusCalls.length + 1 := by
  constructor
  · rfl
  · decide

/-- C8, amended: on every path no error leaves any of the three operations; `takePhoto`
and `closeCamera` call `showStatus` exactly once, and `openCamera` calls it exactly twice,
first with the progress message of severity info and then once with the outcome. -/
theorem status_calls_per_operation (s : AppState) :
    (∀ env, (openCamera env s).2 = none ∧
      ∃ m t, (openCamera env s).1.statusCalls
        = s.statusCalls ++ [("Solicitando acceso a la cámara...", "info"), (m, t)]) ∧
    (∀ env, (takePhoto env s).2 = none ∧
      ∃ m t, (takePhoto env s).1.statusCalls = s.statusCalls ++ [(m, t)]) ∧
    ((closeCamera s).2 = none ∧
      ∃ m t, (closeCamera s).1.statusCalls = s.statusCalls ++ [(m, t)]) := by
  refine ⟨?_, ?_, ?_⟩
  · intro env
    rcases openCameraTry_statusCalls env s with ⟨h2, h1⟩ | ⟨⟨e, h2⟩, h1⟩
    · have hc : openCamera env s = ((openCameraTry env s).1, none) := by
        unfold openCamera tryCatch
        rw [show openCameraTry env s = ((openCameraTry env s).1, (openCameraTry env s).2)
          from rfl, h2]
      rw [hc]
      exact ⟨rfl, _, _, h1⟩
    · have hc : openCamera env s = openCameraCatch e (openCameraTry env s).1 := by
        unfold openCamera tryCatch
        rw [show openCameraTry env s = ((openCameraTry env s).1, (openCameraTry env s).2)
          from rfl, h2]
      rw [hc]
      refine ⟨rfl, openErrorMessage e, "error", ?_⟩
      simp [openCameraCatch, showStatus_statusCalls, h1]
  · intro env
    rcases takePhotoTry_statusCalls env s with ⟨h2, h1⟩ | ⟨⟨e, h2⟩, h1⟩
    · have hc : takePhoto env s = ((takePhotoTry env s).1, none) := by
        unfold takePhoto tryCatch
        rw [show takePhotoTry env s = ((takePhotoTry env s).1, (takePhotoTry env s).2)
          from rfl, h2]
      rw [hc]
      exact ⟨rfl, _, _, h1⟩
    · have hc : takePhoto env s = takePhotoCatch e (takePhotoTry env s).1 := by
        unfold takePhoto tryCatch
        rw [show takePhotoTry env s = ((takePhotoTry env s).1, (takePhotoTry env s).2)
          from rfl, h2]
      rw [hc]
      refine ⟨rfl, "Error al capturar la foto", "error", ?_⟩
      simp [takePhotoCatch, showStatus_statusCalls, h1]
  · rcases closeCameraTry_statusCalls s with ⟨h2, h1⟩ | ⟨⟨e, h2⟩, h1⟩
    · have hc : closeCamera s = ((closeCameraTry s).1, none) := by
        unfold closeCamera tryCatch
        rw [show closeCameraTry s = ((closeCameraTry s).1, (closeCameraTry s).2)
          from rfl, h2]
      rw [hc]
      exact ⟨rfl, _, _, h1⟩
    · have hc : closeCamera s = closeCameraCatch e (closeCameraTry s).1 := by
        unfold closeCamera tryCatch
        rw [show closeCameraTry s = ((closeCameraTry s).1, (closeCameraTry s).2)
          from rfl, h2]
      rw [hc]
      refine ⟨rfl, "Error al cerrar la cámara", "error", ?_⟩
      simp [closeCameraCatch, showStatus_statusCalls, h1]

end App

namespace App

/-! ## Streams and their live tracks -/

theorem hasLive_stopTracks (ms : MediaStream) : hasLive (stopTracks ms) = false := by
  simp [hasLive, stopTracks]

theorem modifyAt_length_append {α : Type} (f : α → α) (xs : List α) (y : α) :
    modifyAt f xs.length (xs ++ [y]) = xs ++ [f y] := by
  induction xs with
  | nil => rfl
  | cons x rest ih => simp [modifyAt, ih]

theorem liveFrom_cons (base : Nat) (x : MediaStream) (rest : List MediaStream) :
    liveFrom base (x :: rest)
      = if hasLive x then base :: liveFrom (base + 1) rest else liveFrom (base + 1) rest := rfl

theorem liveFrom_append (base : Nat) (xs : List MediaStream) (y : MediaStream) :
    liveFrom base (xs ++ [y])
      = liveFrom base xs ++ (if hasLive y then [base + xs.length] else []) := by
  induction xs generalizing base with
  | nil => simp [liveFrom]
  | cons x rest ih =>
    rw [List.cons_append, liveFrom_cons, liveFrom_cons, ih, List.length_cons]
    have : base + 1 + rest.length = base + (rest.length + 1) := by omega
    rw [this]
    by_cases hx : hasLive x = true
    · simp [hx]
    · simp [hx]

theorem mem_liveFrom_ge (base : Nat) (xs : List MediaStream) (i : Nat)
    (h : i ∈ liveFrom base xs) : base ≤ i := by
  induction xs generalizing base with
  | nil => simp [liveFrom] at h
  | cons x rest ih =>
    simp only [liveFrom] at h
    split at h
    · rcases List.mem_cons.mp h with h | h
      · omega
      · have := ih (base + 1) h
        omega
    · have := ih (base + 1) h
      omega

theorem liveFrom_modifyAt (base i : Nat) (xs : List MediaStream) :
    liveFrom base (modifyAt stopTracks i xs)
      = (liveFrom base xs).filter (fun j => j ≠ base + i) := by
  induction xs generalizing base i with
  | nil => simp [modifyAt, liveFrom]
  | cons x rest ih =>
    have hrest : ∀ j ∈ liveFrom (base + 1) rest, j ≠ base := by
      intro j hj
      have := mem_liveFrom_ge _ _ _ hj
      omega
    cases i with
    | zero =>
      have hkeep : (liveFrom (base + 1) rest).filter (fun j => j ≠ base)
          = liveFrom (base + 1) rest := by
        apply List.filter_eq_self.mpr
        intro j hj
        simpa using hrest j hj
      show liveFrom base (stopTracks x :: rest) = _
      rw [liveFrom_cons, liveFrom_cons, hasLive_stopTracks, Nat.add_zero]
      by_cases hx : hasLive x = true
      · simp only [hx, if_true, List.filter_cons]
        simpa using hkeep.symm
      · simp only [hx]
        simpa using hkeep.symm
    | succ k =>
      show liveFrom base (x :: modifyAt stopTracks k rest) = _
      rw [liveFrom_cons, liveFrom_cons, ih]
      have hidx : base + 1 + k = base + (k + 1) := by omega
      rw [hidx]
      by_cases hx : hasLive x = true
      · have : base ≠ base + (k + 1) := by omega
        simp [hx, List.filter_cons, this]
      · simp [hx]

end App

namespace App

/-! ## What each operation does to the stream handle and the stream objects -/

theorem openCamera_rejected_handle (env : OpenEnv) (s : AppState) (error : JsError)
    (h : requestCamera env = .rejected error) :
    (openCamera env s).1.stream = s.stream ∧ (openCamera env s).1.streams = s.streams := by
  rw [openCamera_of_rejected env s error h]
  simp [showStatus_stream, showStatus_streams]

theorem tryCatch_ok (body : AppState → Completion) (handler : JsError → AppState → Completion)
    (s : AppState) (h : (body s).2 = none) : tryCatch body handler s = ((body s).1, none) := by
  unfold tryCatch
  rw [show body s = ((body s).1, (body s).2) from rfl, h]

theorem tryCatch_error (body : AppState → Completion)
    (handler : JsError → AppState → Completion) (s : AppState) (e : JsError)
    (h : (body s).2 = some e) : tryCatch body handler s = handler e (body s).1 := by
  unfold tryCatch
  rw [show body s = ((body s).1, (body s).2) from rfl, h]

theorem openCameraTry_resolved_handle (env : OpenEnv) (s : AppState)
    (trackKinds : List String) (h : requestCamera env = .resolved trackKinds) :
    (openCameraTry env s).1.stream = some s.streams.length ∧
    (openCameraTry env s).1.streams = s.streams ++ [freshStream trackKinds] := by
  unfold openCameraTry openCameraAfterAwait
  simp only [h]
  repeat' split
  all_goals simp [showStatus_stream, showStatus_streams]

theorem openCamera_resolved_handle (env : OpenEnv) (s : AppState) (trackKinds : List String)
    (h : requestCamera env = .resolved trackKinds) :
    (openCamera env s).1.stream = some s.streams.length ∧
    (openCamera env s).1.streams = s.streams ++ [freshStream trackKinds] := by
  have ht := openCameraTry_resolved_handle env s trackKinds h
  cases h2 : (openCameraTry env s).2 with
  | none =>
    rw [openCamera, tryCatch_ok _ _ _ h2]
    exact ht
  | some e =>
    rw [openCamera, tryCatch_error _ _ _ e h2]
    simpa [openCameraCatch, showStatus_stream, showStatus_streams] using ht

theorem takePhotoTry_handle (env : CaptureEnv) (s : AppState) :
    (takePhotoTry env s).1.stream = s.stream ∧ (takePhotoTry env s).1.streams = s.streams := by
  unfold takePhotoTry
  simp only
  repeat' split
  all_goals simp [showStatus_stream, showStatus_streams]

theorem takePhoto_handle (env : CaptureEnv) (s : AppState) :
    (takePhoto env s).1.stream = s.stream ∧ (takePhoto env s).1.streams = s.streams := by
  have ht := takePhotoTry_handle env s
  cases h2 : (takePhotoTry env s).2 with
  | none =>
    rw [takePhoto, tryCatch_ok _ _ _ h2]
    exact ht
  | some e =>
    rw [takePhoto, tryCatch_error _ _ _ e h2]
    simpa [takePhotoCatch, showStatus_stream, showStatus_streams] using ht

theorem closeCameraTry_handle (s : AppState) :
    (closeCameraTry s).1.stream = none ∧
    (closeCameraTry s).1.streams
      = (match s.stream with
         | some ref => modifyAt stopTracks ref s.streams
         | none => s.streams) := by
  unfold closeCameraTry
  cases hs : s.stream <;> cases hv : s.videoElement <;> cases hc : s.cameraContainer <;>
    cases hb : s.openCameraBtn <;>
    simp [hs, hv, hc, hb, showStatus_stream, showStatus_streams]

theorem closeCamera_handle (s : AppState) :
    (closeCamera s).1.stream = none ∧
    (closeCamera s).1.streams
      = (match s.stream with
         | some ref => modifyAt stopTracks ref s.streams
         | none => s.streams) := by
  have ht := closeCameraTry_handle s
  cases h2 : (closeCameraTry s).2 with
  | none =>
    rw [closeCamera, tryCatch_ok _ _ _ h2]
    exact ht
  | some e =>
    rw [closeCamera, tryCatch_error _ _ _ e h2]
    simpa [closeCameraCatch, showStatus_stream, showStatus_streams] using ht

end App


namespace App

/-! ## The two halves of `openCamera` -/

theorem openCameraResume_rejected (error : JsError) (s : AppState) :
    openCameraResume (.rejected error) s
      = (showStatus (openErrorMessage error) "error" s, none) := by
  simp [openCameraResume, tryCatch, openCameraAfterAwait, openCameraCatch]

theorem openCameraAfterAwait_resolved_handle (trackKinds : List String) (s : AppState) :
    (openCameraAfterAwait (.resolved trackKinds) s).1.stream = some s.streams.length ∧
    (openCameraAfterAwait (.resolved trackKinds) s).1.streams
      = s.streams ++ [freshStream trackKinds] := by
  unfold openCameraAfterAwait
  simp only
  repeat' split
  all_goals simp [showStatus_stream, showStatus_streams]

theorem openCameraResume_resolved_handle (trackKinds : List String) (s : AppState) :
    (openCameraResume (.resolved trackKinds) s).1.stream = some s.streams.length ∧
    (openCameraResume (.resolved trackKinds) s).1.streams
      = s.streams ++ [freshStream trackKinds] := by
  have ht := openCameraAfterAwait_resolved_handle trackKinds s
  cases h2 : (openCameraAfterAwait (.resolved trackKinds) s).2 with
  | none =>
    rw [openCameraResume, tryCatch_ok _ _ _ h2]
    exact ht
  | some e =>
    rw [openCameraResume, tryCatch_error _ _ _ e h2]
    simpa [openCameraCatch, showStatus_stream, showStatus_streams] using ht

/-- Run without anything in between, the two halves are the function `openCamera`. -/
theorem openCamera_eq_resume (env : OpenEnv) (s : AppState) :
    openCamera env s
      = openCameraResume (requestCamera env)
          (showStatus "Solicitando acceso a la cámara..." "info" s) := rfl

theorem openCameraCall_handle (m g : Bool) (p : Session) :
    (openCameraCall m g p).app.stream = p.app.stream ∧
    (openCameraCall m g p).app.streams = p.app.streams ∧
    ((openCameraCall m g p).suspended = p.suspended ∨
      (m = true ∧ g = true ∧ (openCameraCall m g p).suspended = p.suspended + 1)) := by
  unfold openCameraCall
  cases m <;> cases g <;>
    simp [openCameraCatch, showStatus_stream, showStatus_streams]

theorem openCameraCall_supported (p : Session) :
    openCameraCall true true p
      = { app := showStatus "Solicitando acceso a la cámara..." "info" p.app,
          suspended := p.suspended + 1 } := by
  simp [openCameraCall]

/-! ## The single-stream invariant -/

/-- One event keeps this true: at most the held stream has a live track, and at most one
`openCamera` call is suspended, in which case the handle is null. -/
theorem afterEvent_preserves_held (p : Session) (e : Event)
    (hLive : liveStreams p.app = [] ∨ ∃ i, p.app.stream = some i ∧ liveStreams p.app = [i])
    (hSusp : p.suspended = 0 ∨ (p.suspended = 1 ∧ p.app.stream = none))
    (hEv : opensWhenFree p [e] = true) :
    (liveStreams (afterEvent p e).app = [] ∨
      ∃ i, (afterEvent p e).app.stream = some i ∧ liveStreams (afterEvent p e).app = [i]) ∧
    ((afterEvent p e).suspended = 0 ∨
      ((afterEvent p e).suspended = 1 ∧ (afterEvent p e).app.stream = none)) := by
  cases e with
  | takePhotoCalled env =>
    obtain ⟨h1, h2⟩ := takePhoto_handle env p.app
    simp only [afterEvent, liveStreams, h1, h2]
    exact ⟨hLive, hSusp⟩
  | closeCameraCalled =>
    obtain ⟨h1, h2⟩ := closeCamera_handle p.app
    simp only [afterEvent, h1]
    refine ⟨Or.inl ?_, ?_⟩
    · simp only [liveStreams, h2]
      cases hs : p.app.stream with
      | none =>
        rcases hLive with h | ⟨i, hi, _⟩
        · exact h
        · rw [hs] at hi; cases hi
      | some ref =>
        simp only
        rw [liveFrom_modifyAt]
        rcases hLive with h | ⟨i, hi, hl⟩
        · simp only [liveStreams] at h
          simp [h]
        · rw [hs] at hi
          cases hi
          simp only [liveStreams] at hl
          simp [hl]
    · rcases hSusp with h | ⟨h, _⟩
      · exact Or.inl h
      · exact Or.inr ⟨h, trivial⟩
  | openCameraCalled m g =>
    have hFree : p.app.stream = none ∧ p.suspended = 0 := by
      simp only [opensWhenFree, Bool.and_true, Bool.and_eq_true, Option.isNone_iff_eq_none,
        beq_iff_eq] at hEv
      exact hEv
    obtain ⟨h1, h2, h3⟩ := openCameraCall_handle m g p
    simp only [afterEvent, liveStreams, h1, h2]
    refine ⟨hLive, ?_⟩
    rcases h3 with h | ⟨_, _, h⟩
    · left; rw [h]; exact hFree.2
    · right; rw [h, hFree.2]; exact ⟨rfl, hFree.1⟩
  | getUserMediaSettled result =>
    simp only [afterEvent, openCameraSettle]
    rcases hSusp with h0 | ⟨h1, hnone⟩
    · rw [h0]
      exact ⟨hLive, Or.inl h0⟩
    · rw [h1]
      simp only
      have hQuiet : liveFrom 0 p.app.streams = [] := by
        rcases hLive with h | ⟨i, hi, _⟩
        · exact h
        · rw [hnone] at hi; cases hi
      refine ⟨?_, Or.inl trivial⟩
      cases result with
      | rejected error =>
        left
        rw [openCameraResume_rejected]
        simp only [liveStreams, showStatus_streams]
        exact hQuiet
      | resolved kinds =>
        obtain ⟨r1, r2⟩ := openCameraResume_resolved_handle kinds p.app
        simp only [liveStreams, r1, r2, liveFrom_append, hQuiet, Nat.zero_add,
          List.nil_append]
        by_cases hl : hasLive (freshStream kinds) = true
        · right
          exact ⟨p.app.streams.length, rfl, by simp [hl]⟩
        · left
          simp [hl]

theorem opensWhenFree_cons (p : Session) (e : Event) (rest : List Event)
    (h : opensWhenFree p (e :: rest) = true) :
    opensWhenFree p [e] = true ∧ opensWhenFree (afterEvent p e) rest = true := by
  cases e with
  | openCameraCalled m g =>
    simp only [opensWhenFree, Bool.and_eq_true, Bool.and_true] at h ⊢
    exact h
  | getUserMediaSettled r =>
    simp only [opensWhenFree] at h ⊢
    exact ⟨trivial, h⟩
  | takePhotoCalled env =>
    simp only [opensWhenFree] at h ⊢
    exact ⟨trivial, h⟩
  | closeCameraCalled =>
    simp only [opensWhenFree] at h ⊢
    exact ⟨trivial, h⟩

theorem runEvents_preserves_held (events : List Event) (p : Session)
    (hLive : liveStreams p.app = [] ∨ ∃ i, p.app.stream = some i ∧ liveStreams p.app = [i])
    (hSusp : p.suspended = 0 ∨ (p.suspended = 1 ∧ p.app.stream = none))
    (hEv : opensWhenFree p events = true) :
    (liveStreams (runEvents p events).app = [] ∨
      ∃ i, (runEvents p events).app.stream = some i ∧
        liveStreams (runEvents p events).app = [i]) ∧
    ((runEvents p events).suspended = 0 ∨
      ((runEvents p events).suspended = 1 ∧ (runEvents p events).app.stream = none)) := by
  induction events generalizing p with
  | nil => exact ⟨hLive, hSusp⟩
  | cons e rest ih =>
    obtain ⟨h1, h2⟩ := opensWhenFree_cons p e rest hEv
    obtain ⟨a, b⟩ := afterEvent_preserves_held p e hLive hSusp h1
    exact ih (afterEvent p e) a b h2

end App

namespace App

/-- C10, counterexample: on the loaded page, two granted `openCamera` calls in a row leave
two streams with live tracks, the first no longer held by the handle; and so do two
`openCamera` calls of which the second is made while the first is still suspended and
the handle is still null. -/
theorem second_open_leaks_first_stream :
    liveStreams (runEvents loadedSession (grantedOpen ++ grantedOpen)).app = [0, 1] ∧
    (runEvents loadedSession (grantedOpen ++ grantedOpen)).app.stream = some 1 ∧
    (runEvents loadedSession [.openCameraCalled true true]).app.stream = none ∧
    liveStreams (runEvents loadedSession overlappingOpens).app = [0, 1] ∧
    (runEvents loadedSession overlappingOpens).app.stream = some 1 := by
  refine ⟨?_, ?_, ?_, ?_, ?_⟩ <;> rfl

/-- C10, amended: start from a page without a live track and without a suspended call
(such as the initial Idle state) and let any sequence of `openCamera` calls, settlings of
their camera requests, `takePhoto` calls and `closeCamera` calls happen, in which
`openCamera` is only called while the handle is null and no earlier `openCamera` call is
still suspended. Then at most one stream has live tracks, every stream with a live track
is the one the handle holds, and whenever a further such event takes a stream out of the
handle, that stream has no live track afterwards. -/
theorem single_stream_invariant (p0 : Session) (events : List Event)
    (hQuiet : liveStreams p0.app = []) (hNone : p0.suspended = 0)
    (hEv : opensWhenFree p0 events = true) :
    (liveStreams (runEvents p0 events).app).length ≤ 1 ∧
    (∀ i ∈ liveStreams (runEvents p0 events).app,
      (runEvents p0 events).app.stream = some i) ∧
    (∀ e i, opensWhenFree (runEvents p0 events) [e] = true →
      (runEvents p0 events).app.stream = some i →
      (afterEvent (runEvents p0 events) e).app.stream ≠ some i →
      i ∉ liveStreams (afterEvent (runEvents p0 events) e).app) := by
  obtain ⟨hLive, hSusp⟩ :=
    runEvents_preserves_held events p0 (Or.inl hQuiet) (Or.inl hNone) hEv
  refine ⟨?_, ?_, ?_⟩
  · rcases hLive with h | ⟨i, _, h⟩ <;> simp [h]
  · intro i hi
    rcases hLive with h | ⟨j, hj, h⟩
    · simp [h] at hi
    · rw [h] at hi
      simp only [List.mem_singleton] at hi
      rw [hi, hj]
  · intro e i hE _ hne hmem
    rcases (afterEvent_preserves_held (runEvents p0 events) e hLive hSusp hE).1
      with h | ⟨j, hj, h⟩
    · simp [h] at hmem
    · rw [h] at hmem
      simp only [List.mem_singleton] at hmem
      exact hne (by rw [hmem, hj])

/-- Witness for C10: open, capture, close, open again on the loaded page. -/
theorem single_stream_invariant_witness :
    (liveStreams (runEvents loadedSession
      (grantedOpen ++ [Event.takePhotoCalled ⟨true, none, none, none⟩, Event.closeCameraCalled]
        ++ grantedOpen)).app).length ≤ 1 :=
  (single_stream_invariant loadedSession
    (grantedOpen ++ [Event.takePhotoCalled ⟨true, none, none, none⟩, Event.closeCameraCalled]
      ++ grantedOpen) rfl rfl (by decide)).1

end App

namespace App

/-! ## Open, then close -/

theorem openCameraAfterAwait_success (trackKinds : List String) (s : AppState)
    (hOk : (openCameraAfterAwait (.resolved trackKinds) s).2 = none) :
    (openCameraAfterAwait (.resolved trackKinds) s).1.videoElement.bind (fun v => v.srcObject)
      = some s.streams.length ∧
    (openCameraAfterAwait (.resolved trackKinds) s).1.cameraContainer = some true ∧
    (openCameraAfterAwait (.resolved trackKinds) s).1.openCameraBtn = some "none" := by
  unfold openCameraAfterAwait showStatus at hOk ⊢
  cases hv : s.videoElement <;> cases hc : s.cameraContainer <;>
    cases hb : s.openCameraBtn <;> cases hk : s.canvasElement <;>
    cases hst : s.statusElement <;>
    simp [hv, hc, hb, hk, hst] at hOk ⊢

theorem closeCameraTry_success (s : AppState) (c : Bool) (b : String)
    (hc : s.cameraContainer = some c) (hb : s.openCameraBtn = some b) :
    (closeCameraTry s).2 = none ∧
    (closeCameraTry s).1.videoElement.bind (fun v => v.srcObject) = none := by
  unfold closeCameraTry showStatus
  cases hs : s.stream <;> cases hv : s.videoElement <;> cases hst : s.statusElement <;>
    simp [hs, hv, hc, hb, hst]

theorem stopTracks_freshStream (trackKinds : List String) :
    stopTracks (freshStream trackKinds) = ⟨trackKinds.map (fun k => ⟨k, false⟩)⟩ := by
  simp [stopTracks, freshStream, List.map_map, Function.comp_def]

theorem runEvents_cons (p : Session) (e : Event) (rest : List Event) :
    runEvents p (e :: rest) = runEvents (afterEvent p e) rest := rfl

/-- Calls of `takePhoto` and `closeCamera` made while the handle is null change neither the
handle nor the streams nor the suspended calls. -/
theorem runEvents_captureOrClose (between : List Event) (p : Session)
    (hIdle : p.app.stream = none)
    (hBetween : ∀ e ∈ between, e.isCaptureOrClose = true) :
    (runEvents p between).app.stream = none ∧
    (runEvents p between).app.streams = p.app.streams ∧
    (runEvents p between).suspended = p.suspended := by
  induction between generalizing p with
  | nil => exact ⟨hIdle, rfl, rfl⟩
  | cons e rest ih =>
    have he := hBetween e (List.mem_cons_self e rest)
    have hrest : ∀ x ∈ rest, x.isCaptureOrClose = true :=
      fun x hx => hBetween x (List.mem_cons_of_mem e hx)
    rw [runEvents_cons]
    cases e with
    | openCameraCalled m g => simp [Event.isCaptureOrClose] at he
    | getUserMediaSettled r => simp [Event.isCaptureOrClose] at he
    | takePhotoCalled env =>
      obtain ⟨h1, h2⟩ := takePhoto_handle env p.app
      have hst : (afterEvent p (.takePhotoCalled env)).app.stream = none := by
        simp only [afterEvent, h1, hIdle]
      obtain ⟨a, b, c⟩ := ih (afterEvent p (.takePhotoCalled env)) hst hrest
      refine ⟨a, ?_, ?_⟩
      · rw [b]; simp only [afterEvent, h2]
      · rw [c]; rfl
    | closeCameraCalled =>
      obtain ⟨h1, h2⟩ := closeCamera_handle p.app
      have hst : (afterEvent p .closeCameraCalled).app.stream = none := by
        simp only [afterEvent, h1]
      obtain ⟨a, b, c⟩ := ih (afterEvent p .closeCameraCalled) hst hrest
      refine ⟨a, ?_, ?_⟩
      · rw [b]; simp only [afterEvent, h2, hIdle]
      · rw [c]; rfl

/-- C9, counterexample: after two granted opens in a row and one `closeCamera` the handle
is null (Idle); a further `openCamera` succeeds from there, and the `closeCamera` after it
still leaves the stream leaked earlier with a live track. -/
theorem open_close_from_idle_leaves_live_track :
    idleAfterLeak.app.stream = none ∧
    idleAfterLeak.suspended = 0 ∧
    (openCameraAfterAwait (.resolved ["video"])
      (afterEvent idleAfterLeak (.openCameraCalled true true)).app).2 = none ∧
    liveStreams (afterEvent (afterGrantedOpen idleAfterLeak [] ["video"])
      .closeCameraCalled).app = [0] := by
  refine ⟨?_, ?_, ?_, ?_⟩ <;> rfl

/-- C9, amended: take a page whose handle is null and on which no stream has a live
track, call `openCamera`, let `takePhoto` and `closeCamera` calls happen while it is
suspended, and let its camera request be granted and the rest of the call succeed. Then
the handle holds the one stream the request returned (its tracks all live), which is also
the preview's source; a `closeCamera` after it leaves that stream with every track stopped
and the other streams untouched, clears the preview's source, sets the handle to null and
leaves no stream with a live track; a second `closeCamera` changes no stream and leaves
the handle null. -/
theorem open_then_close_releases (p : Session) (between : List Event)
    (trackKinds : List String)
    (hIdle : p.app.stream = none) (hQuiet : liveStreams p.app = [])
    (hBetween : ∀ e ∈ between, e.isCaptureOrClose = true)
    (hOk : (openCameraAfterAwait (.resolved trackKinds)
      (runEvents (afterEvent p (.openCameraCalled true true)) between).app).2 = none) :
    (afterGrantedOpen p between trackKinds).app.stream = some p.app.streams.length ∧
    (afterGrantedOpen p between trackKinds).app.streams
      = p.app.streams ++ [⟨trackKinds.map (fun k => ⟨k, true⟩)⟩] ∧
    (afterGrantedOpen p between trackKinds).app.videoElement.bind (fun v => v.srcObject)
      = some p.app.streams.length ∧
    (afterGrantedOpen p between trackKinds).suspended = p.suspended ∧
    (afterEvent (afterGrantedOpen p between trackKinds) .closeCameraCalled).app.stream
      = none ∧
    (afterEvent (afterGrantedOpen p between trackKinds) .closeCameraCalled).app.streams
      = p.app.streams ++ [⟨trackKinds.map (fun k => ⟨k, false⟩)⟩] ∧
    (afterEvent (afterGrantedOpen p between trackKinds)
      .closeCameraCalled).app.videoElement.bind (fun v => v.srcObject) = none ∧
    liveStreams (afterEvent (afterGrantedOpen p between trackKinds) .closeCameraCalled).app
      = [] ∧
    (afterEvent (afterEvent (afterGrantedOpen p between trackKinds) .closeCameraCalled)
      .closeCameraCalled).app.stream = none ∧
    (afterEvent (afterEvent (afterGrantedOpen p between trackKinds) .closeCameraCalled)
      .closeCameraCalled).app.streams
      = p.app.streams ++ [⟨trackKinds.map (fun k => ⟨k, false⟩)⟩] := by
  -- the state that the resumed call finds
  have hcall : afterEvent p (.openCameraCalled true true)
      = { app := showStatus "Solicitando acceso a la cámara..." "info" p.app,
          suspended := p.suspended + 1 } := openCameraCall_supported p
  have hcallIdle : (afterEvent p (.openCameraCalled true true)).app.stream = none := by
    rw [hcall]; simp only [showStatus_stream, hIdle]
  obtain ⟨b1, b2, b3⟩ :=
    runEvents_captureOrClose between (afterEvent p (.openCameraCalled true true))
      hcallIdle hBetween
  have b2' : (runEvents (afterEvent p (.openCameraCalled true true)) between).app.streams
      = p.app.streams := by
    rw [b2, hcall]; simp only [showStatus_streams]
  have b3' : (runEvents (afterEvent p (.openCameraCalled true true)) between).suspended
      = p.suspended + 1 := by
    rw [b3, hcall]
  generalize hq : runEvents (afterEvent p (.openCameraCalled true true)) between = q
    at hOk b1 b2' b3'
  have hopened : afterGrantedOpen p between trackKinds
      = { app := (openCameraAfterAwait (.resolved trackKinds) q.app).1,
          suspended := p.suspended } := by
    unfold afterGrantedOpen
    rw [hq]
    simp only [afterEvent, openCameraSettle, b3']
    rw [openCameraResume, tryCatch_ok _ _ _ hOk]
  obtain ⟨o1, o2⟩ := openCameraAfterAwait_resolved_handle trackKinds q.app
  obtain ⟨o3, o4, o5⟩ := openCameraAfterAwait_success trackKinds q.app hOk
  rw [b2'] at o1 o2 o3
  rw [hopened]
  generalize (openCameraAfterAwait (.resolved trackKinds) q.app).1 = s1 at o1 o2 o3 o4 o5
  obtain ⟨c0, c3⟩ := closeCameraTry_success s1 true "none" o4 o5
  have hclose : closeCamera s1 = ((closeCameraTry s1).1, none) := by
    rw [closeCamera, tryCatch_ok _ _ _ c0]
  obtain ⟨c1, c2⟩ := closeCamera_handle s1
  have hstreams : (closeCamera s1).1.streams
      = p.app.streams ++ [⟨trackKinds.map (fun k => ⟨k, false⟩)⟩] := by
    rw [c2, o1, o2]
    simp only
    rw [modifyAt_length_append, stopTracks_freshStream]
  obtain ⟨d1, d2⟩ := closeCamera_handle (closeCamera s1).1
  refine ⟨o1, ?_, o3, rfl, c1, hstreams, ?_, ?_, d1, ?_⟩
  · rw [o2]; rfl
  · show (closeCamera s1).1.videoElement.bind (fun v => v.srcObject) = none
    rw [hclose]; exact c3
  · show liveFrom 0 (closeCamera s1).1.streams = []
    simp only [liveStreams] at hQuiet
    rw [hstreams, liveFrom_append, hQuiet]
    simp [hasLive]
  · show (closeCamera (closeCamera s1).1).1.streams = _
    rw [d2, c1]
    exact hstreams

/-- Witness for C9: a granted open on the loaded page, with a capture attempt while the
call is suspended. -/
theorem open_then_close_releases_witness :
    (afterGrantedOpen loadedSession [Event.takePhotoCalled ⟨true, none, none, none⟩]
      ["video"]).app.stream = some 0 ∧
    liveStreams (afterEvent (afterGrantedOpen loadedSession
      [Event.takePhotoCalled ⟨true, none, none, none⟩] ["video"])
      .closeCameraCalled).app = [] :=
  let h := open_then_close_releases loadedSession
    [Event.takePhotoCalled ⟨true, none, none, none⟩] ["video"] rfl rfl (by decide) rfl
  ⟨h.1, h.2.2.2.2.2.2.2.1⟩

end App
